import Mathlib

/-!
Verification of the Scalable-Web-Aware-RAG-Engine core against its
natural-language specification.

The Python sources are shallowly embedded: pure functions become Lean
functions, external services (HTTP, Gemini, Qdrant, Postgres) are modelled
as explicit inputs (call-outcome streams, response records, row values),
and machine arithmetic is carried out over Nat / Int / Rat with the
relevant coercions made explicit.
-/

set_option autoImplicit false

namespace WebRAG

/-! ## Python string primitives

Helpers mirroring the Python built-ins used by the sources:
str.split() with no argument (split on whitespace runs, dropping empty
pieces), and substring membership (the in operator on str).
-/

/-- Whitespace characters recognised by the Python str.split() builtin
(ASCII subset: space, tab, newline, carriage return, vertical tab,
form feed). -/
def py_is_space (c : Char) : Bool :=
  c = ' ' || c = '\t' || c = '\n' || c = '\x0d' || c = '\x0b' || c = '\x0c'

/-- Accumulator-based worker for py_split: walks the character list,
collecting the current word in reverse in acc. -/
def py_split_aux : List Char → List Char → List (List Char)
  | [], acc => if acc.isEmpty then [] else [acc.reverse]
  | c :: cs, acc =>
    if py_is_space c then
      if acc.isEmpty then py_split_aux cs []
      else acc.reverse :: py_split_aux cs []
    else py_split_aux cs (c :: acc)

/-- Python str.split() with no argument: maximal runs of non-whitespace
characters, in order; empty strings never appear in the result. -/
def py_split (s : String) : List String :=
  (py_split_aux s.toList []).map List.asString

/-- Python substring membership on character lists: pat occurs
contiguously inside l. -/
def list_contains_seq (pat : List Char) : List Char → Bool
  | [] => pat.isEmpty
  | c :: cs => pat.isPrefixOf (c :: cs) || list_contains_seq pat cs

/-- Python substring membership pat in s on strings. -/
def py_in (pat s : String) : Bool :=
  list_contains_seq pat.toList s.toList

/-- Python str.lower() character by character (ASCII case mapping; the
exception messages classified by the retry loop are ASCII). -/
def py_to_lower (s : String) : String :=
  List.asString (s.toList.map Char.toLower)

/-- Python str.upper() character by character (ASCII case mapping). -/
def py_to_upper (s : String) : String :=
  List.asString (s.toList.map Char.toUpper)

/-! ## Token estimation (content_processor.py, estimate_tokens)

Source:
    words = len(text.split())
    return int(words * 1.3)

The float expression int(words * 1.3) truncates toward zero.  For word
counts below 2^40 the IEEE-754 double computation agrees with the exact
rational truncation floor(13 * words / 10), which is what we embed: the
double nearest to 1.3 is 1.3 + d with 0 < d < 2^-50, so the product
differs from the exact value 13w/10 by far less than the distance to the
next lower integer for any such w.
-/

/-- Token estimate of a chunk: word count times 1.3, truncated to an
integer (Python int() on the float product). -/
def estimate_tokens (text : String) : Nat :=
  13 * (py_split text).length / 10

/-- Modelled from the spec words only (for comparison with the source
function): word count times 1.3 rounded to the NEAREST integer. -/
def spec_rounded_estimate (text : String) : Nat :=
  (13 * (py_split text).length + 5) / 10

/-! ## Vector point ids (vectorstore.py, add_documents)

Source:
    job_hash = hash(job_id) % 1000000
    point_id = job_hash * 10000 + idx

Python hash() on a str is salted per interpreter process (hash
randomisation, PYTHONHASHSEED): the same job_id can hash to different
values in different worker processes.  The embedding therefore takes the
process string-hash function as an explicit parameter. The Python %
operator on a positive modulus agrees with Int.emod.
-/

/-- Qdrant point id computed by add_documents for chunk idx of a job,
parameterised by the string-hash function of the executing process. -/
def point_id (pyhash : String → Int) (job_id : String) (idx : Nat) : Int :=
  pyhash job_id % 1000000 * 10000 + idx

/-- Point ids produced by one run of add_documents over n chunks. -/
def add_documents_ids (pyhash : String → Int) (job_id : String) (n : Nat) : List Int :=
  (List.range n).map (point_id pyhash job_id)

example : estimate_tokens "a b c" = 3 := by decide
example : spec_rounded_estimate "a b c" = 4 := by decide
example : py_split "  hello   world " = ["hello", "world"] := by decide
example : py_in "rate limit" "429 rate limit exceeded" = true := by decide
example : py_in "quota" "fine" = false := by decide

/-! ## Retry loop (embeddings.py, GeminiEmbeddings._with_retries)

The wrapped external call is modelled as a stream of outcomes: element k
is what the k-th invocation of func would do (return a value or raise
with a given message).  The loop of _with_retries is embedded as a
recursion over that stream; the time.sleep durations are collected so the
backoff schedule is part of the result.  Backoff starts at 1.0 and
doubles, so every sleep is an exact power of two and Nat seconds are an
exact model of the float arithmetic.
-/

/-- Outcome of one invocation of the wrapped callable: a returned value
or a raised exception whose str() is err. -/
inductive CallOutcome (α : Type) where
  | success (v : α)
  | failure (err : String)
deriving DecidableEq, Repr

/-- Result of the retry loop: the value returned or the exception
re-raised, together with the sleep durations performed (in order). -/
inductive RetryResult (α : Type) where
  | returned (v : α) (sleeps : List Nat)
  | raised (err : String) (sleeps : List Nat)
deriving DecidableEq, Repr

/-- Rate-limit classifier of _with_retries: the lowercased exception
message contains 429, rate limit, quota exceeded or resource
exhausted. -/
def is_rate_limit (err : String) : Bool :=
  let e := py_to_lower err
  py_in "429" e || py_in "rate limit" e || py_in "quota exceeded" e ||
    py_in "resource exhausted" e

/-- Prepend one performed sleep to a retry-loop result. -/
def cons_sleep {α : Type} (b : Nat) : Option (RetryResult α) → Option (RetryResult α)
  | none => none
  | some (RetryResult.returned v sleeps) => some (RetryResult.returned v (b :: sleeps))
  | some (RetryResult.raised e sleeps) => some (RetryResult.raised e (b :: sleeps))

/-- Worker for the retry loop, carrying the attempt counter and current
backoff exactly as the Python while-loop does.  Returns none when the
modelled outcome stream is exhausted before the loop finishes. -/
def with_retries_aux {α : Type} :
    List (CallOutcome α) → Nat → Nat → Option (RetryResult α)
  | [], _, _ => none
  | CallOutcome.success v :: _, _, _ => some (RetryResult.returned v [])
  | CallOutcome.failure e :: rest, attempt, backoff =>
    let attempt1 := attempt + 1
    if is_rate_limit e then
      if attempt1 ≥ 5 then some (RetryResult.raised e [])
      else cons_sleep backoff (with_retries_aux rest attempt1 (backoff * 2))
    else
      if attempt1 ≥ 3 then some (RetryResult.raised e [])
      else cons_sleep backoff (with_retries_aux rest attempt1 (backoff * 2))

/-- GeminiEmbeddings._with_retries: attempt counter starts at 0, backoff
at 1 second. -/
def with_retries {α : Type} (outcomes : List (CallOutcome α)) : Option (RetryResult α) :=
  with_retries_aux outcomes 0 1

/-! ## embed_query (embeddings.py, GeminiEmbeddings.embed_query)

Source:
    resp = self._with_retries(_call, text)
    return resp.get("embedding", [])

The Gemini response dict is modelled as Option (List V): some vec when
the embedding key is present, none otherwise.  Vector components are
opaque (type parameter V); only the length is ever inspected by the
callers. -/

/-- embed_query over a modelled stream of Gemini call outcomes: the
returned response has its embedding extracted with default [], and a
re-raised error propagates; none means the modelled stream ended before
the retry loop did. -/
def embed_query {V : Type} (outcomes : List (CallOutcome (Option (List V)))) :
    Option (Except String (List V)) :=
  match with_retries outcomes with
  | none => none
  | some (RetryResult.returned resp _) => some (Except.ok (resp.getD []))
  | some (RetryResult.raised e _) => some (Except.error e)

/-! ## Query orchestrator (main.py, query_knowledge_base)

The three external stages are inputs: the embedding result, the search
stage as a function of the query vector, and the generation stage as a
function of the retrieved hits.  Modelling the latter two as functions
lets independence theorems express that a stage is never invoked.
Request timing, log output and the response metadata dict (timestamps,
model names) are not modelled; the HTTP error paths carry the exact
status codes and detail strings of the source. -/

/-- One Qdrant search hit as simplified by QdrantStore.search: payload
text and source_url, and the similarity score. Scores are carried as
rationals; IEEE float artifacts are not modelled. -/
structure SearchHit where
  text : Option String
  source_url : Option String
  score : Option Rat
deriving DecidableEq, Repr

/-- One source entry of the query response. -/
structure SourceChunk where
  text : String
  source_url : Option String
  relevance_score : Rat
deriving DecidableEq, Repr

/-- Outcome of the /query endpoint: an HTTPException with status code
and detail, or a successful response (answer and sources; the metadata
dict of timings and model names is not modelled). -/
inductive QueryOutcome where
  | http_error (status_code : Nat) (detail : String)
  | ok (answer : String) (sources : List SourceChunk)
deriving DecidableEq, Repr

/-- Python round(x, 4) on the score, in exact rational arithmetic
(round-half-ties follow Mathlib round; no claim depends on the score
values). -/
def round4 (q : Rat) : Rat :=
  Rat.divInt (round (q * 10000)) 10000

/-- STEP 5 of query_knowledge_base: truncate the hit text to 300
characters with an ellipsis marker and round the score to 4 decimal
places. -/
def format_source (hit : SearchHit) : SourceChunk :=
  let txt := hit.text.getD ""
  let txt2 := if txt.length > 300 then txt.take 300 ++ "..." else txt
  { text := txt2
    source_url := hit.source_url
    relevance_score := round4 (hit.score.getD 0) }

/-- query_knowledge_base: embed the question, validate the vector
dimension, search, 404 on zero hits, generate, assemble the response.
Every stage failure maps to its own 500 detail string. -/
def query_knowledge_base {V : Type} (embed_result : Except String (List V))
    (search : List V → Except String (List SearchHit))
    (generate : List SearchHit → Except String String) : QueryOutcome :=
  match embed_result with
  | Except.error e => QueryOutcome.http_error 500 ("Failed to embed question: " ++ e)
  | Except.ok query_vector =>
    if query_vector.isEmpty || query_vector.length != 1536 then
      QueryOutcome.http_error 500 "Embedding service returned invalid dimension"
    else
      match search query_vector with
      | Except.error e =>
        QueryOutcome.http_error 500 ("Vector database search failed: " ++ e)
      | Except.ok search_results =>
        if search_results.isEmpty then
          QueryOutcome.http_error 404
            "No relevant documents found. Please ingest URLs first using POST /ingest-url"
        else
          match generate search_results with
          | Except.error e =>
            QueryOutcome.http_error 500 ("Answer generation failed: " ++ e)
          | Except.ok answer =>
            QueryOutcome.ok answer (search_results.map format_source)

/-! ## Answer generation (llm.py, GeminiLLM.generate_answer)

The Gemini model is an input: a function from the prompt string to the
response object.  A response carries a candidate list (empty when absent
or falsy) and a text attribute; accessing response.text in the SDK can
raise on malformed responses, which getattr with a default does not
intercept, so the text attribute is modelled with three cases. -/

/-- Finish reason of the first candidate: the SDK value is either an
integer code or a string-like enum value. -/
inductive FinishReason where
  | int_val (n : Int)
  | str_val (s : String)
deriving DecidableEq, Repr

/-- Python str(finish_reason). -/
def finish_reason_repr : FinishReason → String
  | FinishReason.int_val n => toString n
  | FinishReason.str_val s => s

/-- Safety check of generate_answer on one finish reason:
finish_reason == 2 or str(finish_reason).upper() == "SAFETY". -/
def is_safety_finish (fr : FinishReason) : Bool :=
  (match fr with
   | FinishReason.int_val n => n == 2
   | FinishReason.str_val _ => false) ||
    py_to_upper (finish_reason_repr fr) == "SAFETY"

/-- One candidate of a Gemini generation response; none models a
candidate without a finish_reason attribute. -/
structure Candidate where
  finish_reason : Option FinishReason
deriving DecidableEq, Repr

/-- The text attribute of a response: present with a value, absent
(getattr default applies), or a property whose access raises (the SDK
error on malformed responses). -/
inductive TextAttr where
  | value (s : String)
  | missing
  | raising (err : String)
deriving DecidableEq, Repr

/-- A Gemini generation response: candidate list (an absent or falsy
candidates attribute is the empty list) and the text attribute. -/
structure GenResponse where
  candidates : List Candidate
  text : TextAttr
deriving DecidableEq, Repr

/-- Python strip() with no arguments. -/
def py_strip (s : String) : String :=
  List.asString (((s.toList.dropWhile py_is_space).reverse.dropWhile py_is_space).reverse)

/-- Extraction step of generate_answer:
answer = getattr(response, "text", "").strip(); return answer.
A raising text property propagates its exception. -/
def extract_answer : TextAttr → Except String String
  | TextAttr.value s => Except.ok (py_strip s)
  | TextAttr.missing => Except.ok ""
  | TextAttr.raising e => Except.error e

/-- Branch condition of the safety-refusal check of generate_answer, for
stating theorems: the first candidate exists and has a finish_reason
that signals safety. -/
def response_is_safety (resp : GenResponse) : Bool :=
  match resp.candidates.head? with
  | some c =>
    match c.finish_reason with
    | some fr => is_safety_finish fr
    | none => false
  | none => false

/-- Python str(None) for optional payload fields interpolated into the
prompt f-string. -/
def py_str_opt (o : Option String) : String :=
  match o with
  | some s => s
  | none => "None"

/-- Context block of the prompt: numbered Source blocks joined by a
separator line, exactly as built by generate_answer. -/
def format_context (context_chunks : List SearchHit) : String :=
  String.intercalate "\n---\n"
    ((context_chunks.enumFrom 1).map (fun p =>
      "Source " ++ toString p.1 ++ " (" ++ py_str_opt p.2.source_url ++ "):\n" ++
        py_str_opt p.2.text ++ "\n"))

/-- The deterministic prompt of generate_answer. -/
def build_prompt (question : String) (context_chunks : List SearchHit) : String :=
  "You are a helpful AI assistant that answers questions based ONLY on the provided context.\n" ++
  "INSTRUCTIONS:\n" ++
  "Read the context sources carefully\n" ++
  "Answer the question using ONLY information from the context\n" ++
  "If the context doesn't contain enough information, respond: \"I cannot answer this question based on the provided context.\"\n" ++
  "Cite which source number(s) you used (e.g., \"According to Source 1...\")\n" ++
  "Be concise but complete\n" ++
  "Do not add information not present in the context\n" ++
  "CONTEXT:\n" ++ format_context context_chunks ++ "\n" ++
  "QUESTION: " ++ question ++ "\n" ++
  "ANSWER:"

/-- Post-call part of GeminiLLM.generate_answer: check the first
candidate for a safety finish reason and substitute the fixed refusal
string, otherwise extract and strip the response text. -/
def generate_answer_core (response : GenResponse) : Except String String :=
  match response.candidates.head? with
  | some candidate =>
    match candidate.finish_reason with
    | some fr =>
      if is_safety_finish fr then
        Except.ok "I cannot answer this question based on the provided context."
      else extract_answer response.text
    | none => extract_answer response.text
  | none => extract_answer response.text

/-- GeminiLLM.generate_answer: build the prompt, call the model (an
input of the embedding), then process the response. -/
def generate_answer (model : String → GenResponse) (question : String)
    (context_chunks : List SearchHit) : Except String String :=
  generate_answer_core (model (build_prompt question context_chunks))

/-! ## Job ledger, async side (database.py and models.py)

URLIngestionJob rows are embedded as records; timestamps are opaque Nat
values, the metadata JSON dict is a string-keyed association list with
opaque string values.  create_job is the submission-path constructor
(status pending, server-side defaults); update_job_status sets status
and then every explicitly passed keyword attribute. -/

/-- One url_ingestion_jobs row as mapped by SQLAlchemy. -/
structure JobRecord where
  id : String
  url : String
  status : String
  created_at : Nat
  updated_at : Nat
  started_at : Option Nat
  completed_at : Option Nat
  chunk_count : Int
  total_tokens : Int
  processing_time_seconds : Rat
  error_message : Option String
  error_traceback : Option String
  celery_task_id : Option String
  metadata_json : List (String × String)
deriving DecidableEq, Repr

/-- Keyword arguments accepted by update_job_status; a some value is an
explicitly passed keyword.  Keyword names without a matching model
attribute are collected in extra and ignored by the update. -/
structure AsyncKwargs where
  started_at : Option (Option Nat) := none
  completed_at : Option (Option Nat) := none
  chunk_count : Option Int := none
  total_tokens : Option Int := none
  processing_time_seconds : Option Rat := none
  error_message : Option (Option String) := none
  error_traceback : Option (Option String) := none
  celery_task_id : Option (Option String) := none
  metadata : Option (List (String × String)) := none
  extra : List String := []
deriving Repr

/-- create_job: a fresh row with status pending and server-side
defaults (id and creation timestamp come from the database). -/
def create_job (id : String) (url : String) (metadata : List (String × String))
    (now : Nat) : JobRecord :=
  { id := id
    url := url
    status := "pending"
    created_at := now
    updated_at := now
    started_at := none
    completed_at := none
    chunk_count := 0
    total_tokens := 0
    processing_time_seconds := 0
    error_message := none
    error_traceback := none
    celery_task_id := none
    metadata_json := metadata }

/-- update_job_status on the matched row: status is always assigned,
then each explicitly passed keyword updates its attribute (metadata is
mapped to the metadata_json attribute); unmatched keyword names are
ignored. -/
def update_job_status (job : JobRecord) (status : String) (kw : AsyncKwargs) : JobRecord :=
  { job with
    status := status
    started_at := kw.started_at.getD job.started_at
    completed_at := kw.completed_at.getD job.completed_at
    chunk_count := kw.chunk_count.getD job.chunk_count
    total_tokens := kw.total_tokens.getD job.total_tokens
    processing_time_seconds := kw.processing_time_seconds.getD job.processing_time_seconds
    error_message := kw.error_message.getD job.error_message
    error_traceback := kw.error_traceback.getD job.error_traceback
    celery_task_id := kw.celery_task_id.getD job.celery_task_id
    metadata_json := kw.metadata.getD job.metadata_json }

/-- The ledger invariant claimed by the spec: status is one of the four
states, and completed_at is set exactly on the terminal states. -/
def ledger_invariant (j : JobRecord) : Prop :=
  (j.status = "pending" ∨ j.status = "processing" ∨ j.status = "completed" ∨
    j.status = "failed") ∧
    (j.completed_at ≠ none ↔ (j.status = "completed" ∨ j.status = "failed"))

instance (j : JobRecord) : Decidable (ledger_invariant j) := by
  unfold ledger_invariant
  infer_instance

/-! ## Job ledger, worker side (database.py, update_job_status_sync)

The raw-SQL worker update is embedded in two steps, mirroring the
source: first the SET-clause list is built (status always first, then
each recognised keyword that is present, in the iteration order of
mapping_fields, then metadata), then the clauses are applied in order to
the matched row.  SQL parameters of nullable columns are Option values;
the metadata value is serialised by an abstract json.dumps. -/

/-- One url_ingestion_jobs row as returned by the RealDictCursor: the
metadata column holds JSON text. -/
structure SyncJobRow where
  id : String
  url : String
  status : String
  created_at : Nat
  updated_at : Nat
  started_at : Option Nat
  completed_at : Option Nat
  chunk_count : Option Int
  total_tokens : Option Int
  processing_time_seconds : Option Rat
  error_message : Option String
  error_traceback : Option String
  celery_task_id : Option String
  metadata : Option String
deriving DecidableEq, Repr

/-- Keyword arguments of update_job_status_sync; a some value is an
explicitly passed keyword, extra collects keyword names outside the
recognised set (their values are never examined). -/
structure SyncKwargs (J : Type) where
  started_at : Option (Option Nat) := none
  completed_at : Option (Option Nat) := none
  chunk_count : Option (Option Int) := none
  error_message : Option (Option String) := none
  error_traceback : Option (Option String) := none
  celery_task_id : Option (Option String) := none
  total_tokens : Option (Option Int) := none
  processing_time_seconds : Option (Option Rat) := none
  metadata : Option J := none
  extra : List String := []

/-- One SET clause of the generated UPDATE statement. -/
inductive SetClause where
  | set_status (v : String)
  | set_started_at (v : Option Nat)
  | set_completed_at (v : Option Nat)
  | set_chunk_count (v : Option Int)
  | set_error_message (v : Option String)
  | set_error_traceback (v : Option String)
  | set_celery_task_id (v : Option String)
  | set_total_tokens (v : Option Int)
  | set_processing_time_seconds (v : Option Rat)
  | set_metadata (v : String)
deriving DecidableEq, Repr

/-- Builds the SET-clause list exactly as update_job_status_sync does:
status first, the recognised keywords that are present in the
mapping_fields iteration order, and finally metadata (serialised with
json.dumps). -/
def build_set_clauses {J : Type} (json_dumps : J → String) (status : String)
    (kw : SyncKwargs J) : List SetClause :=
  [SetClause.set_status status] ++
    (kw.started_at.map SetClause.set_started_at).toList ++
    (kw.completed_at.map SetClause.set_completed_at).toList ++
    (kw.chunk_count.map SetClause.set_chunk_count).toList ++
    (kw.error_message.map SetClause.set_error_message).toList ++
    (kw.error_traceback.map SetClause.set_error_traceback).toList ++
    (kw.celery_task_id.map SetClause.set_celery_task_id).toList ++
    (kw.total_tokens.map SetClause.set_total_tokens).toList ++
    (kw.processing_time_seconds.map SetClause.set_processing_time_seconds).toList ++
    (kw.metadata.map (fun m => SetClause.set_metadata (json_dumps m))).toList

/-- SQL semantics of one SET clause on the matched row: the named column
is assigned, the others keep their values. -/
def apply_set_clause (row : SyncJobRow) : SetClause → SyncJobRow
  | SetClause.set_status v => { row with status := v }
  | SetClause.set_started_at v => { row with started_at := v }
  | SetClause.set_completed_at v => { row with completed_at := v }
  | SetClause.set_chunk_count v => { row with chunk_count := v }
  | SetClause.set_error_message v => { row with error_message := v }
  | SetClause.set_error_traceback v => { row with error_traceback := v }
  | SetClause.set_celery_task_id v => { row with celery_task_id := v }
  | SetClause.set_total_tokens v => { row with total_tokens := v }
  | SetClause.set_processing_time_seconds v => { row with processing_time_seconds := v }
  | SetClause.set_metadata v => { row with metadata := some v }

/-- update_job_status_sync restricted to the row matched by the WHERE id
clause (a missing row returns None in the source and updates nothing). -/
def update_job_status_sync {J : Type} (json_dumps : J → String) (row : SyncJobRow)
    (status : String) (kw : SyncKwargs J) : SyncJobRow :=
  (build_set_clauses json_dumps status kw).foldl apply_set_clause row

/-! ## HTML cleaning (content_processor.py, clean_html)

The parse tree produced by BeautifulSoup with the lxml parser is the
input; a document is its list of top-level nodes.  clean_html then
decomposes the unwanted elements, extracts text with a single-space
separator (preferring the first body element of the pruned tree), and
normalises whitespace with " ".join(text.split()). -/

/-- A parsed markup node: a navigable string or an element with a tag
and child nodes. -/
inductive Html where
  | text_node (s : String)
  | element (tag : String) (children : List Html)
deriving Repr

/-- The tags decomposed by clean_html. -/
def banned_tags : List String :=
  ["script", "style", "nav", "footer", "header", "noscript"]

mutual

/-- Effect of soup([...tags...]) followed by tag.decompose() on one
node: a banned element disappears with its whole subtree, any other node
keeps its surviving children. -/
def remove_banned : Html → Option Html
  | Html.text_node s => some (Html.text_node s)
  | Html.element tag children =>
    if banned_tags.contains tag then none
    else some (Html.element tag (remove_banned_list children))

/-- remove_banned over a child list, dropping removed nodes. -/
def remove_banned_list : List Html → List Html
  | [] => []
  | a :: rest =>
    match remove_banned a with
    | none => remove_banned_list rest
    | some b => b :: remove_banned_list rest

end

mutual

/-- The navigable strings below one node, in document order; get_text
with a separator joins exactly these. -/
def node_texts : Html → List String
  | Html.text_node s => [s]
  | Html.element _ children => list_texts children

/-- node_texts over a child list. -/
def list_texts : List Html → List String
  | [] => []
  | a :: rest => node_texts a ++ list_texts rest

end

mutual

/-- soup.body: the first element with tag body, in document order. -/
def find_body : Html → Option Html
  | Html.text_node _ => none
  | Html.element tag children =>
    if tag = "body" then some (Html.element tag children)
    else find_body_list children

/-- find_body over a child list. -/
def find_body_list : List Html → Option Html
  | [] => none
  | a :: rest =>
    match find_body a with
    | some b => some b
    | none => find_body_list rest

end

mutual

/-- Absence predicate for the decomposed tags: no element below the
node carries a banned tag. -/
def banned_free : Html → Bool
  | Html.text_node _ => true
  | Html.element tag children => !banned_tags.contains tag && banned_free_list children

/-- banned_free over a child list. -/
def banned_free_list : List Html → Bool
  | [] => true
  | a :: rest => banned_free a && banned_free_list rest

end

/-- Whitespace normalisation of clean_html:
cleaned = " ".join(body.split()). -/
def normalize_ws (s : String) : String :=
  String.intercalate " " (py_split s)

/-- ContentProcessor.clean_html on a parsed document (list of top-level
nodes): decompose the unwanted tags, take body text when a body element
exists (whole-document text otherwise) with a single-space separator,
then normalise whitespace. -/
def clean_html (doc : List Html) : String :=
  let pruned := remove_banned_list doc
  let body_text :=
    match find_body_list pruned with
    | some body => String.intercalate " " (node_texts body)
    | none => String.intercalate " " (list_texts pruned)
  normalize_ws body_text

/-- Parse tree of the scenario-A markup
"Hello <script>bad()</script> World" under the lxml parser, which wraps
the fragment in html and body elements. -/
def scenario_a_doc : List Html :=
  [Html.element "html"
    [Html.element "body"
      [Html.text_node "Hello ",
       Html.element "script" [Html.text_node "bad()"],
       Html.text_node " World"]]]

/-! ## Theorems -/

/-- C1: the claim says the vector point id computed by add_documents is
a deterministic function of (job identifier, chunk index) across runs
and worker processes.  It is not: the id is computed from the built-in
Python hash of the job id string, which is salted per interpreter
process (hash randomisation is on by default), so two worker processes
whose string hashes differ on the job id — here modelled by the two
process hash functions mapping the job id to 0 and to 1, both reachable
under salting — produce different ids and different id sets for the same
job and chunks, and re-processing appends instead of overwriting. -/
theorem point_id_depends_on_process_hash :
    point_id (fun _ => 0) "job-1" 0 = 0 ∧
    point_id (fun _ => 1) "job-1" 0 = 10000 ∧
    add_documents_ids (fun _ => 0) "job-1" 1 ≠ add_documents_ids (fun _ => 1) "job-1" 1 := by
  refine ⟨by decide, by decide, by decide⟩

/-- C3: the claim says completed_at is non-null exactly on the terminal
states and that every ledger update preserves this.  The enqueue-failure
path of the /ingest-url handler (main.py line 139) violates it: on a
fresh pending job it calls update_job_status with status failed and only
an error_message keyword, so the resulting row is failed with
completed_at still null, while the invariant does hold on the freshly
created row. -/
theorem failed_job_without_completed_at :
    ledger_invariant (create_job "j-1" "https://example.com" [] 0) ∧
    (update_job_status (create_job "j-1" "https://example.com" [] 0) "failed"
      { error_message := some (some "enqueue failed") }).status = "failed" ∧
    (update_job_status (create_job "j-1" "https://example.com" [] 0) "failed"
      { error_message := some (some "enqueue failed") }).completed_at = none ∧
    ¬ ledger_invariant (update_job_status (create_job "j-1" "https://example.com" [] 0)
      "failed" { error_message := some (some "enqueue failed") }) := by
  refine ⟨by decide, rfl, rfl, by decide⟩

/-- C5 counterexample: the claim says the per-chunk token estimate is
the word count times 1.3 rounded to the NEAREST integer; on the
three-word chunk "a b c" the source truncates 3.9 to 3 while rounding to
nearest gives 4. -/
theorem estimate_tokens_counterexample :
    estimate_tokens "a b c" = 3 ∧ spec_rounded_estimate "a b c" = 4 := by
  refine ⟨by decide, by decide⟩

/-- C5 amended: for every chunk text, the per-chunk token estimate
equals the word count multiplied by 1.3 and truncated toward zero
(Python int() of the product), i.e. the floor of the exact rational
product. -/
theorem estimate_tokens_eq_floor (text : String) :
    (estimate_tokens text : ℤ) = ⌊((py_split text).length : ℚ) * (13 / 10)⌋ := by
  set w := (py_split text).length with hw
  have h1 : estimate_tokens text * 10 ≤ 13 * w := by
    simpa [estimate_tokens, hw] using Nat.div_mul_le_self (13 * w) 10
  have h2 : 13 * w < (estimate_tokens text + 1) * 10 := by
    have := Nat.lt_succ_self (13 * w / 10)
    exact (Nat.div_lt_iff_lt_mul (by norm_num)).1 this
  rw [eq_comm, Int.floor_eq_iff]
  have hq1 : ((estimate_tokens text : ℚ)) * 10 ≤ 13 * (w : ℚ) := by exact_mod_cast h1
  have hq2 : (13 : ℚ) * (w : ℚ) < ((estimate_tokens text : ℚ) + 1) * 10 := by exact_mod_cast h2
  constructor
  · push_cast
    linarith
  · push_cast
    linarith

/-- Fold of one optional started_at SET clause. -/
theorem fold_started_at (row : SyncJobRow) (o : Option (Option Nat)) :
    List.foldl apply_set_clause row (o.map SetClause.set_started_at).toList =
      { row with started_at := o.getD row.started_at } := by
  cases o <;> rfl

/-- Fold of one optional completed_at SET clause. -/
theorem fold_completed_at (row : SyncJobRow) (o : Option (Option Nat)) :
    List.foldl apply_set_clause row (o.map SetClause.set_completed_at).toList =
      { row with completed_at := o.getD row.completed_at } := by
  cases o <;> rfl

/-- Fold of one optional chunk_count SET clause. -/
theorem fold_chunk_count (row : SyncJobRow) (o : Option (Option Int)) :
    List.foldl apply_set_clause row (o.map SetClause.set_chunk_count).toList =
      { row with chunk_count := o.getD row.chunk_count } := by
  cases o <;> rfl

/-- Fold of one optional error_message SET clause. -/
theorem fold_error_message (row : SyncJobRow) (o : Option (Option String)) :
    List.foldl apply_set_clause row (o.map SetClause.set_error_message).toList =
      { row with error_message := o.getD row.error_message } := by
  cases o <;> rfl

/-- Fold of one optional error_traceback SET clause. -/
theorem fold_error_traceback (row : SyncJobRow) (o : Option (Option String)) :
    List.foldl apply_set_clause row (o.map SetClause.set_error_traceback).toList =
      { row with error_traceback := o.getD row.error_traceback } := by
  cases o <;> rfl

/-- Fold of one optional celery_task_id SET clause. -/
theorem fold_celery_task_id (row : SyncJobRow) (o : Option (Option String)) :
    List.foldl apply_set_clause row (o.map SetClause.set_celery_task_id).toList =
      { row with celery_task_id := o.getD row.celery_task_id } := by
  cases o <;> rfl

/-- Fold of one optional total_tokens SET clause. -/
theorem fold_total_tokens (row : SyncJobRow) (o : Option (Option Int)) :
    List.foldl apply_set_clause row (o.map SetClause.set_total_tokens).toList =
      { row with total_tokens := o.getD row.total_tokens } := by
  cases o <;> rfl

/-- Fold of one optional processing_time_seconds SET clause. -/
theorem fold_processing_time_seconds (row : SyncJobRow) (o : Option (Option Rat)) :
    List.foldl apply_set_clause row (o.map SetClause.set_processing_time_seconds).toList =
      { row with processing_time_seconds := o.getD row.processing_time_seconds } := by
  cases o <;> rfl

/-- Fold of one optional serialised metadata SET clause. -/
theorem fold_metadata {J : Type} (json_dumps : J → String) (row : SyncJobRow)
    (o : Option J) :
    List.foldl apply_set_clause row
        ((o.map (fun m => SetClause.set_metadata (json_dumps m))).toList) =
      { row with metadata := (o.map (fun m => some (json_dumps m))).getD row.metadata } := by
  cases o <;> rfl

/-- Closed form of the worker-side update: the fold over the generated
SET clauses is one simultaneous record update. -/
theorem update_job_status_sync_eq {J : Type} (json_dumps : J → String)
    (row : SyncJobRow) (status : String) (kw : SyncKwargs J) :
    update_job_status_sync json_dumps row status kw =
      { row with
        status := status
        started_at := kw.started_at.getD row.started_at
        completed_at := kw.completed_at.getD row.completed_at
        chunk_count := kw.chunk_count.getD row.chunk_count
        error_message := kw.error_message.getD row.error_message
        error_traceback := kw.error_traceback.getD row.error_traceback
        celery_task_id := kw.celery_task_id.getD row.celery_task_id
        total_tokens := kw.total_tokens.getD row.total_tokens
        processing_time_seconds := kw.processing_time_seconds.getD row.processing_time_seconds
        metadata := (kw.metadata.map (fun m => some (json_dumps m))).getD row.metadata } := by
  unfold update_job_status_sync build_set_clauses
  simp only [List.foldl_append, List.foldl_cons, List.foldl_nil, fold_started_at,
    fold_completed_at, fold_chunk_count, fold_error_message, fold_error_traceback,
    fold_celery_task_id, fold_total_tokens, fold_processing_time_seconds,
    fold_metadata]
  rfl

/-- C10: for every call to the worker-side ledger update, the status
column is always written, each recognised keyword that is explicitly
passed writes exactly its column, every other column of the matched row
(id, url, created_at, updated_at, and every recognised column without a
passed keyword) keeps its value, and keyword names outside the
recognised set do not influence the result. -/
theorem update_job_status_sync_frame {J : Type} (json_dumps : J → String)
    (row : SyncJobRow) (status : String) (kw : SyncKwargs J) :
    (update_job_status_sync json_dumps row status kw).status = status ∧
    (update_job_status_sync json_dumps row status kw).started_at =
      kw.started_at.getD row.started_at ∧
    (update_job_status_sync json_dumps row status kw).completed_at =
      kw.completed_at.getD row.completed_at ∧
    (update_job_status_sync json_dumps row status kw).chunk_count =
      kw.chunk_count.getD row.chunk_count ∧
    (update_job_status_sync json_dumps row status kw).error_message =
      kw.error_message.getD row.error_message ∧
    (update_job_status_sync json_dumps row status kw).error_traceback =
      kw.error_traceback.getD row.error_traceback ∧
    (update_job_status_sync json_dumps row status kw).celery_task_id =
      kw.celery_task_id.getD row.celery_task_id ∧
    (update_job_status_sync json_dumps row status kw).total_tokens =
      kw.total_tokens.getD row.total_tokens ∧
    (update_job_status_sync json_dumps row status kw).processing_time_seconds =
      kw.processing_time_seconds.getD row.processing_time_seconds ∧
    (update_job_status_sync json_dumps row status kw).metadata =
      (kw.metadata.map (fun m => some (json_dumps m))).getD row.metadata ∧
    (update_job_status_sync json_dumps row status kw).id = row.id ∧
    (update_job_status_sync json_dumps row status kw).url = row.url ∧
    (update_job_status_sync json_dumps row status kw).created_at = row.created_at ∧
    (update_job_status_sync json_dumps row status kw).updated_at = row.updated_at ∧
    (∀ ex : List String, update_job_status_sync json_dumps row status
      { kw with extra := ex } = update_job_status_sync json_dumps row status kw) := by
  rw [update_job_status_sync_eq]
  refine ⟨rfl, rfl, rfl, rfl, rfl, rfl, rfl, rfl, rfl, rfl, rfl, rfl, rfl, rfl, ?_⟩
  intro ex
  simp only [update_job_status_sync_eq]

/-- C8: when the vector search of the query pipeline succeeds with zero
hits, the orchestrator reports the 404 not-found outcome with the
no-relevant-documents detail (not a 500 processing error), and the
answer generator is never invoked: the outcome is the same for every
generation stage. -/
theorem query_no_results_not_found {V : Type} (qv : List V)
    (search : List V → Except String (List SearchHit))
    (generate : List SearchHit → Except String String)
    (hdim : qv.length = 1536) (hs : search qv = Except.ok []) :
    query_knowledge_base (Except.ok qv) search generate =
      QueryOutcome.http_error 404
        "No relevant documents found. Please ingest URLs first using POST /ingest-url" ∧
    (∀ generate2 : List SearchHit → Except String String,
      query_knowledge_base (Except.ok qv) search generate2 =
        query_knowledge_base (Except.ok qv) search generate) := by
  have hne : qv.isEmpty = false := by
    cases qv with
    | nil => simp at hdim
    | cons a l => rfl
  constructor
  · simp [query_knowledge_base, hne, hdim, hs]
  · intro generate2
    simp [query_knowledge_base, hne, hdim, hs]

/-- C8 witness: concrete 1536-dimensional vector, empty search result,
generator that would fail if invoked. -/
theorem query_no_results_not_found_witness :
    query_knowledge_base (Except.ok (List.replicate 1536 (0 : Int)))
        (fun _ => Except.ok []) (fun _ => Except.error "never invoked") =
      QueryOutcome.http_error 404
        "No relevant documents found. Please ingest URLs first using POST /ingest-url" :=
  (query_no_results_not_found (List.replicate 1536 (0 : Int))
    (fun _ => Except.ok []) (fun _ => Except.error "never invoked")
    (List.length_replicate 1536 0) rfl).1

/-- C4 counterexample: the claim says embed_query always returns a
vector of length 1536 or raises.  When the external call succeeds but
the response carries no embedding key, embed_query returns the default
empty vector normally (resp.get with default []), so a vector of length
0 is returned and nothing is raised. -/
theorem embed_query_counterexample :
    embed_query (V := Int) [CallOutcome.success none] = some (Except.ok []) ∧
    ([] : List Int).length ≠ 1536 := by
  refine ⟨rfl, by decide⟩

/-- C4 amended: embed_query itself performs no dimensionality check: it
returns whatever embedding the service response carries (default [])
when the retry loop returns, and re-raises the loop error otherwise;
the query orchestrator rejects with the fixed 500 processing error,
before the search stage is ever consulted, every query vector whose
length is not 1536. -/
theorem embed_query_dimension_policy :
    (∀ (outcomes : List (CallOutcome (Option (List Int)))) (resp : Option (List Int))
        (sleeps : List Nat),
      with_retries outcomes = some (RetryResult.returned resp sleeps) →
      embed_query outcomes = some (Except.ok (resp.getD []))) ∧
    (∀ (outcomes : List (CallOutcome (Option (List Int)))) (e : String)
        (sleeps : List Nat),
      with_retries outcomes = some (RetryResult.raised e sleeps) →
      embed_query outcomes = some (Except.error e)) ∧
    (∀ (qv : List Int) (search : List Int → Except String (List SearchHit))
        (generate : List SearchHit → Except String String),
      qv.length ≠ 1536 →
      query_knowledge_base (Except.ok qv) search generate =
        QueryOutcome.http_error 500 "Embedding service returned invalid dimension") := by
  refine ⟨?_, ?_, ?_⟩
  · intro outcomes resp sleeps h
    simp [embed_query, h]
  · intro outcomes e sleeps h
    simp [embed_query, h]
  · intro qv search generate hlen
    have : (qv.length != 1536) = true := by
      simpa using hlen
    simp [query_knowledge_base, this]

/-- C4 witness: a successful response with an embedding, an exhausted
retry loop, and a one-dimensional query vector rejected before
search. -/
theorem embed_query_dimension_policy_witness :
    embed_query (V := Int) [CallOutcome.success (some [7])] = some (Except.ok [7]) ∧
    embed_query (V := Int) [CallOutcome.failure "boom", CallOutcome.failure "boom",
      CallOutcome.failure "boom"] = some (Except.error "boom") ∧
    query_knowledge_base (Except.ok [(0 : Int)]) (fun _ => Except.ok [])
        (fun _ => Except.ok "answer") =
      QueryOutcome.http_error 500 "Embedding service returned invalid dimension" := by
  refine ⟨embed_query_dimension_policy.1 _ (some [7]) [] rfl,
    embed_query_dimension_policy.2.1 _ "boom" [1, 2] (by decide),
    embed_query_dimension_policy.2.2 [(0 : Int)] _ _ (by decide)⟩

/-- Helper: when the safety branch is not taken, generate_answer_core
is exactly the text extraction step. -/
theorem generate_answer_core_no_safety (resp : GenResponse)
    (hs : response_is_safety resp = false) :
    generate_answer_core resp = extract_answer resp.text := by
  obtain ⟨cands, ta⟩ := resp
  unfold response_is_safety at hs
  unfold generate_answer_core
  cases hh : cands.head? with
  | none => simp [hh]
  | some c =>
    cases hf : c.finish_reason with
    | none => simp [hh, hf]
    | some fr =>
      simp only [hh, hf] at hs
      simp [hh, hf, hs]

/-- C6: whenever the first candidate of the model response carries a
finish reason that signals a safety refusal (the integer code 2 or the
SAFETY string), generate_answer returns exactly the fixed refusal
string, whatever the response text is and whatever the question and
context are. -/
theorem generate_answer_safety_refusal (model : String → GenResponse)
    (question : String) (chunks : List SearchHit) (c : Candidate) (fr : FinishReason)
    (hc : (model (build_prompt question chunks)).candidates.head? = some c)
    (hf : c.finish_reason = some fr)
    (hs : is_safety_finish fr = true) :
    generate_answer model question chunks =
      Except.ok "I cannot answer this question based on the provided context." := by
  simp [generate_answer, generate_answer_core, hc, hf, hs]

/-- C6 witness: a model whose response has finish reason 2 and raw
refusal text still yields exactly the fixed refusal string. -/
theorem generate_answer_safety_refusal_witness :
    generate_answer
        (fun _ => { candidates := [{ finish_reason := some (FinishReason.int_val 2) }],
                    text := TextAttr.value "raw safety text from the model" }) "q" [] =
      Except.ok "I cannot answer this question based on the provided context." :=
  generate_answer_safety_refusal _ "q" []
    { finish_reason := some (FinishReason.int_val 2) } (FinishReason.int_val 2)
    rfl rfl (by decide)

/-- C7 counterexample: the claim says an empty (non-refusal) response
makes generate_answer raise a generation error; on a response with no
candidates and empty text the source returns the empty string normally
(getattr with default plus strip), raising nothing. -/
theorem generate_answer_empty_counterexample :
    generate_answer (fun _ => { candidates := [], text := TextAttr.value "" }) "q" [] =
      Except.ok "" := rfl

/-- C7 amended: only a malformed response, one whose text accessor
raises (the SDK error propagates through getattr), makes generate_answer
propagate an error to the caller; an empty or missing text with no
safety refusal returns the empty string normally. -/
theorem generate_answer_malformed_policy (model : String → GenResponse)
    (question : String) (chunks : List SearchHit) :
    (∀ e : String,
      response_is_safety (model (build_prompt question chunks)) = false →
      (model (build_prompt question chunks)).text = TextAttr.raising e →
      generate_answer model question chunks = Except.error e) ∧
    (response_is_safety (model (build_prompt question chunks)) = false →
      (model (build_prompt question chunks)).text = TextAttr.value "" →
      generate_answer model question chunks = Except.ok "") ∧
    (response_is_safety (model (build_prompt question chunks)) = false →
      (model (build_prompt question chunks)).text = TextAttr.missing →
      generate_answer model question chunks = Except.ok "") := by
  have step : ∀ (ta : TextAttr),
      response_is_safety (model (build_prompt question chunks)) = false →
      (model (build_prompt question chunks)).text = ta →
      generate_answer model question chunks = extract_answer ta := by
    intro ta hs ht
    unfold generate_answer
    rw [generate_answer_core_no_safety _ hs, ht]
  refine ⟨fun e hs ht => step (TextAttr.raising e) hs ht,
    fun hs ht => ?_, fun hs ht => step TextAttr.missing hs ht⟩
  have h := step (TextAttr.value "") hs ht
  simpa [extract_answer, py_strip, py_split_aux] using h

/-- C7 witness: a raising text accessor propagates its error, an empty
text returns the empty string, a missing text attribute returns the
empty string. -/
theorem generate_answer_malformed_policy_witness :
    generate_answer (fun _ => { candidates := [], text := TextAttr.raising "bad parts" })
        "q" [] = Except.error "bad parts" ∧
    generate_answer
        (fun _ => { candidates := [{ finish_reason := some (FinishReason.int_val 1) }],
                    text := TextAttr.value "" }) "q" [] = Except.ok "" ∧
    generate_answer (fun _ => { candidates := [], text := TextAttr.missing }) "q" [] =
      Except.ok "" := by
  refine ⟨(generate_answer_malformed_policy _ "q" []).1 "bad parts" (by decide) rfl,
    (generate_answer_malformed_policy _ "q" []).2.1 (by decide) rfl,
    (generate_answer_malformed_policy _ "q" []).2.2 (by decide) rfl⟩

/-- Helper: a run of rate-limited failures within the 5-attempt budget
followed by a success returns the value, sleeping the doubling backoff
before each retry. -/
theorem with_retries_aux_rl_success {α : Type} (v : α) (fails : List String) :
    ∀ (rest : List (CallOutcome α)) (attempt backoff : Nat),
      (∀ e ∈ fails, is_rate_limit e = true) → attempt + fails.length < 5 →
      with_retries_aux (fails.map CallOutcome.failure ++ CallOutcome.success v :: rest)
          attempt backoff =
        some (RetryResult.returned v
          ((List.range fails.length).map (fun i => backoff * 2 ^ i))) := by
  induction fails with
  | nil =>
    intro rest attempt backoff _ _
    simp [with_retries_aux]
  | cons e fs ih =>
    intro rest attempt backoff h hl
    have he : is_rate_limit e = true := h e (List.mem_cons_self e fs)
    have hfs : ∀ x ∈ fs, is_rate_limit x = true :=
      fun x hx => h x (List.mem_cons_of_mem e hx)
    have hlen : attempt + 1 + fs.length < 5 := by
      simp only [List.length_cons] at hl
      omega
    have hnot : ¬ attempt + 1 ≥ 5 := by omega
    have ihspec := ih rest (attempt + 1) (backoff * 2) hfs hlen
    simp only [List.map_cons, List.cons_append, with_retries_aux, he, if_true,
      if_neg hnot, List.append_eq, List.length_cons]
    rw [ihspec]
    simp only [cons_sleep]
    rw [List.range_succ_eq_map, List.map_cons, List.map_map]
    simp only [pow_zero, Nat.mul_one]
    refine congrArg _ (congrArg _ (congrArg _ ?_))
    apply List.map_congr_left
    intro i _
    simp only [Function.comp_apply, pow_succ]
    ring

/-- Helper: a run of non-rate-limited failures within the 3-attempt
budget followed by a success returns the value, with the same doubling
backoff. -/
theorem with_retries_aux_other_success {α : Type} (v : α) (fails : List String) :
    ∀ (rest : List (CallOutcome α)) (attempt backoff : Nat),
      (∀ e ∈ fails, is_rate_limit e = false) → attempt + fails.length < 3 →
      with_retries_aux (fails.map CallOutcome.failure ++ CallOutcome.success v :: rest)
          attempt backoff =
        some (RetryResult.returned v
          ((List.range fails.length).map (fun i => backoff * 2 ^ i))) := by
  induction fails with
  | nil =>
    intro rest attempt backoff _ _
    simp [with_retries_aux]
  | cons e fs ih =>
    intro rest attempt backoff h hl
    have he : is_rate_limit e = false := h e (List.mem_cons_self e fs)
    have hfs : ∀ x ∈ fs, is_rate_limit x = false :=
      fun x hx => h x (List.mem_cons_of_mem e hx)
    have hlen : attempt + 1 + fs.length < 3 := by
      simp only [List.length_cons] at hl
      omega
    have hnot : ¬ attempt + 1 ≥ 3 := by omega
    have ihspec := ih rest (attempt + 1) (backoff * 2) hfs hlen
    simp only [List.map_cons, List.cons_append, with_retries_aux, he, Bool.false_eq_true,
      if_false, if_neg hnot, List.append_eq, List.length_cons]
    rw [ihspec]
    simp only [cons_sleep]
    rw [List.range_succ_eq_map, List.map_cons, List.map_map]
    simp only [pow_zero, Nat.mul_one]
    refine congrArg _ (congrArg _ (congrArg _ ?_))
    apply List.map_congr_left
    intro i _
    simp only [Function.comp_apply, pow_succ]
    ring

/-- C2: the two-tier retry policy of the embedding client.  When every
failure is classified as rate-limiting, the wrapped call is attempted up
to 5 times: a success after k failures (k at most 4) is returned after
backoff sleeps 1, 2, ..., 2^(k-1) seconds, and a fifth rate-limited
failure re-raises that last error after the sleeps 1, 2, 4, 8.  When
every failure is of any other kind the budget is 3 attempts: a success
after at most 2 failures is returned with the same doubling schedule,
and a third failure re-raises that last error after the sleeps 1, 2. -/
theorem with_retries_two_tier_policy {α : Type} :
    (∀ (fails : List String) (v : α) (rest : List (CallOutcome α)),
      (∀ e ∈ fails, is_rate_limit e = true) → fails.length ≤ 4 →
      with_retries (fails.map CallOutcome.failure ++ CallOutcome.success v :: rest) =
        some (RetryResult.returned v ((List.range fails.length).map (fun i => 2 ^ i)))) ∧
    (∀ (e1 e2 e3 e4 e5 : String) (rest : List (CallOutcome α)),
      is_rate_limit e1 = true → is_rate_limit e2 = true → is_rate_limit e3 = true →
      is_rate_limit e4 = true → is_rate_limit e5 = true →
      with_retries (CallOutcome.failure e1 :: CallOutcome.failure e2 ::
          CallOutcome.failure e3 :: CallOutcome.failure e4 :: CallOutcome.failure e5 ::
          (rest : List (CallOutcome α))) =
        some (RetryResult.raised e5 [1, 2, 4, 8])) ∧
    (∀ (fails : List String) (v : α) (rest : List (CallOutcome α)),
      (∀ e ∈ fails, is_rate_limit e = false) → fails.length ≤ 2 →
      with_retries (fails.map CallOutcome.failure ++ CallOutcome.success v :: rest) =
        some (RetryResult.returned v ((List.range fails.length).map (fun i => 2 ^ i)))) ∧
    (∀ (e1 e2 e3 : String) (rest : List (CallOutcome α)),
      is_rate_limit e1 = false → is_rate_limit e2 = false → is_rate_limit e3 = false →
      with_retries (CallOutcome.failure e1 :: CallOutcome.failure e2 ::
          CallOutcome.failure e3 :: (rest : List (CallOutcome α))) =
        some (RetryResult.raised e3 [1, 2])) := by
  refine ⟨?_, ?_, ?_, ?_⟩
  · intro fails v rest h hlen
    rw [with_retries, with_retries_aux_rl_success v fails rest 0 1 h (by omega)]
    refine congrArg _ (congrArg _ ?_)
    apply List.map_congr_left
    intro i _
    exact Nat.one_mul _
  · intro e1 e2 e3 e4 e5 rest h1 h2 h3 h4 h5
    simp [with_retries, with_retries_aux, h1, h2, h3, h4, h5, cons_sleep]
  · intro fails v rest h hlen
    rw [with_retries, with_retries_aux_other_success v fails rest 0 1 h (by omega)]
    refine congrArg _ (congrArg _ ?_)
    apply List.map_congr_left
    intro i _
    exact Nat.one_mul _
  · intro e1 e2 e3 rest h1 h2 h3
    simp [with_retries, with_retries_aux, h1, h2, h3, cons_sleep]

/-- C2 witness: three rate-limit failures then success (scenario D,
sleeps 1, 2, 4), five rate-limit failures re-raise, one generic failure
then success, three generic failures re-raise. -/
theorem with_retries_two_tier_policy_witness :
    with_retries [CallOutcome.failure "429 quota", CallOutcome.failure "rate limit",
        CallOutcome.failure "Resource exhausted", CallOutcome.success (5 : Nat)] =
      some (RetryResult.returned 5 [1, 2, 4]) ∧
    with_retries (α := Nat) [CallOutcome.failure "429", CallOutcome.failure "429",
        CallOutcome.failure "429", CallOutcome.failure "429", CallOutcome.failure "429"] =
      some (RetryResult.raised "429" [1, 2, 4, 8]) ∧
    with_retries [CallOutcome.failure "connection reset", CallOutcome.success (5 : Nat)] =
      some (RetryResult.returned 5 [1]) ∧
    with_retries (α := Nat) [CallOutcome.failure "boom", CallOutcome.failure "boom",
        CallOutcome.failure "boom"] =
      some (RetryResult.raised "boom" [1, 2]) := by
  refine ⟨?_, ?_, ?_, ?_⟩
  · exact with_retries_two_tier_policy.1
      ["429 quota", "rate limit", "Resource exhausted"] 5 [] (by decide) (by decide)
  · exact with_retries_two_tier_policy.2.1 "429" "429" "429" "429" "429" []
      (by decide) (by decide) (by decide) (by decide) (by decide)
  · exact with_retries_two_tier_policy.2.2.1 ["connection reset"] 5 [] (by decide)
      (by decide)
  · exact with_retries_two_tier_policy.2.2.2 "boom" "boom" "boom" [] (by decide)
      (by decide) (by decide)

mutual

/-- Helper: a node surviving remove_banned contains no banned-tag
element. -/
theorem remove_banned_sound : ∀ (t b : Html), remove_banned t = some b → banned_free b = true
  | Html.text_node s, b, h => by
    simp [remove_banned] at h
    subst h
    simp [banned_free]
  | Html.element tag children, b, h => by
    by_cases hb : tag ∈ banned_tags
    · simp [remove_banned, hb] at h
    · simp [remove_banned, hb] at h
      subst h
      simp [banned_free, hb, remove_banned_list_sound children]

/-- Helper: every node of a pruned child list is free of banned tags. -/
theorem remove_banned_list_sound : ∀ (l : List Html), banned_free_list (remove_banned_list l) = true
  | [] => by simp [remove_banned_list, banned_free_list]
  | a :: rest => by
    cases ha : remove_banned a with
    | none => simp [remove_banned_list, ha, remove_banned_list_sound rest]
    | some b =>
      simp [remove_banned_list, ha, banned_free_list,
        remove_banned_sound a b ha, remove_banned_list_sound rest]

end

/-- Helper: membership form of banned_free_list. -/
theorem banned_free_list_mem (l : List Html) (h : banned_free_list l = true) :
    ∀ t ∈ l, banned_free t = true := by
  induction l with
  | nil => intro t ht; simp at ht
  | cons a rest ih =>
    intro t ht
    simp only [banned_free_list, Bool.and_eq_true] at h
    rcases List.mem_cons.mp ht with rfl | h2
    · exact h.1
    · exact ih h.2 t h2

/-- Helper: every word produced by the split worker is nonempty and
whitespace-free, provided the accumulator holds no whitespace. -/
theorem py_split_aux_tokens : ∀ (cs acc : List Char),
    (∀ c ∈ acc, py_is_space c = false) →
    ∀ w ∈ py_split_aux cs acc, w ≠ [] ∧ ∀ c ∈ w, py_is_space c = false := by
  intro cs
  induction cs with
  | nil =>
    intro acc hacc w hw
    by_cases h : acc.isEmpty = true
    · simp [py_split_aux, h] at hw
    · simp only [py_split_aux, h, if_false, Bool.false_eq_true] at hw
      simp only [List.mem_singleton] at hw
      subst hw
      refine ⟨?_, ?_⟩
      · intro hrev
        rw [List.reverse_eq_nil_iff] at hrev
        subst hrev
        simp at h
      · intro c hc
        exact hacc c (List.mem_reverse.mp hc)
  | cons c cs ih =>
    intro acc hacc w hw
    by_cases hsp : py_is_space c = true
    · by_cases hv : acc.isEmpty = true
      · simp only [py_split_aux, hsp, hv, if_true] at hw
        exact ih [] (by simp) w hw
      · simp only [py_split_aux, hsp, hv, if_true, if_false, Bool.false_eq_true] at hw
        rcases List.mem_cons.mp hw with rfl | hw2
        · refine ⟨?_, ?_⟩
          · intro hrev
            rw [List.reverse_eq_nil_iff] at hrev
            subst hrev
            simp at hv
          · intro x hx
            exact hacc x (List.mem_reverse.mp hx)
        · exact ih [] (by simp) w hw2
    · simp only [py_split_aux, hsp, Bool.false_eq_true, if_false] at hw
      refine ih (c :: acc) ?_ w hw
      intro x hx
      rcases List.mem_cons.mp hx with rfl | hx2
      · exact Bool.not_eq_true _ ▸ (by simpa using hsp)
      · exact hacc x hx2

/-- Helper: every token of the Python split of a string is nonempty and
contains no whitespace character. -/
theorem py_split_tokens (s : String) :
    ∀ tok ∈ py_split s, tok ≠ "" ∧ ∀ c ∈ tok.toList, py_is_space c = false := by
  intro tok htok
  unfold py_split at htok
  rcases List.mem_map.mp htok with ⟨w, hw, hws⟩
  obtain ⟨hne, hchars⟩ := py_split_aux_tokens s.toList [] (by simp) w hw
  subst hws
  refine ⟨?_, ?_⟩
  · intro h
    exact hne (congrArg String.toList h)
  · intro c hc
    exact hchars c hc

/-- C9: clean_html removes every script, style, nav, footer, header and
noscript element (no banned tag survives pruning), extracts text from
the first body element when one survives, produces a whitespace-normal
result (single ASCII spaces between nonempty whitespace-free tokens, so
no leading or trailing whitespace and no runs), is a pure function of
the parse tree, and maps the scenario-A document containing
"Hello <script>bad()</script> World" to exactly "Hello World". -/
theorem clean_html_spec :
    (∀ (doc : List Html) (t : Html), t ∈ remove_banned_list doc → banned_free t = true) ∧
    (∀ (doc : List Html) (b : Html),
      find_body_list (remove_banned_list doc) = some b →
      clean_html doc = normalize_ws (String.intercalate " " (node_texts b))) ∧
    (∀ doc : List Html, ∃ toks : List String,
      clean_html doc = String.intercalate " " toks ∧
      ∀ tok ∈ toks, tok ≠ "" ∧ ∀ c ∈ tok.toList, py_is_space c = false) ∧
    clean_html scenario_a_doc = "Hello World" := by
  refine ⟨?_, ?_, ?_, ?_⟩
  · intro doc t ht
    exact banned_free_list_mem _ (remove_banned_list_sound doc) t ht
  · intro doc b hb
    simp [clean_html, hb]
  · intro doc
    refine ⟨py_split (match find_body_list (remove_banned_list doc) with
      | some body => String.intercalate " " (node_texts body)
      | none => String.intercalate " " (list_texts (remove_banned_list doc))), rfl, ?_⟩
    exact py_split_tokens _
  · have h1 : remove_banned_list scenario_a_doc =
        [Html.element "html" [Html.element "body"
          [Html.text_node "Hello ", Html.text_node " World"]]] := by
      simp [scenario_a_doc, remove_banned_list, remove_banned, banned_tags]
    have h2 : find_body_list [Html.element "html" [Html.element "body"
        [Html.text_node "Hello ", Html.text_node " World"]]] =
        some (Html.element "body" [Html.text_node "Hello ", Html.text_node " World"]) := by
      simp [find_body_list, find_body]
    have h3 : node_texts (Html.element "body"
        [Html.text_node "Hello ", Html.text_node " World"]) = ["Hello ", " World"] := by
      simp [node_texts, list_texts]
    simp only [clean_html, h1, h2, h3]
    decide

/-- C9 witness: the surviving html element of the scenario-A document is
banned-free, body preference holds on the scenario-A document, and its
cleaned text is a normalised token join. -/
theorem clean_html_spec_witness :
    banned_free (Html.element "html" [Html.element "body"
      [Html.text_node "Hello ", Html.text_node " World"]]) = true ∧
    clean_html scenario_a_doc = normalize_ws (String.intercalate " "
      (node_texts (Html.element "body" [Html.text_node "Hello ", Html.text_node " World"]))) ∧
    (∃ toks : List String, clean_html scenario_a_doc = String.intercalate " " toks ∧
      ∀ tok ∈ toks, tok ≠ "" ∧ ∀ c ∈ tok.toList, py_is_space c = false) := by
  refine ⟨clean_html_spec.1 scenario_a_doc _ ?_, clean_html_spec.2.1 scenario_a_doc _ ?_,
    clean_html_spec.2.2.1 scenario_a_doc⟩
  · simp [scenario_a_doc, remove_banned_list, remove_banned, banned_tags]
  · simp [scenario_a_doc, remove_banned_list, remove_banned, banned_tags,
      find_body_list, find_body]

end WebRAG
